import Mathlib

/-!
Verification of the client-side turn-taking and silence-detection logic of the
MediFox voice agent, embedded from src/voice_agent/frontend/src/App.tsx.

Modelling conventions:
* The mutable session state of the component (the React state flags
  isRecording / isPlaying / isPaused / isProcessing, the refs audioChunksRef /
  silentChunksRef / currentAudioChunksRef, the MediaRecorder, the WebSocket and
  the playing Audio element) is one record, AppState.  A state setter such as
  setIsPaused(true) is modelled as an immediate field update on that record.
* An audio chunk is represented by its byte size (a Nat); silence
  classification in the source only reads e.data.size.
* Outbound traffic on the socket is a list of Out values: Out.text for a
  ws.send of a string, Out.binary for a ws.send of a Blob, where the blob is
  identified with the list of chunk sizes it concatenates (a single-chunk send
  is Out.binary of a one-element list).
* Each browser callback of the source (ondataavailable, onmessage, onended,
  onerror, onclose, ...) becomes a function from AppState to AppState paired
  with the list of messages it sends; an event-labelled step function and a
  Reachable predicate tie them together.
-/

namespace VoiceAgent

/-- Constant from App.tsx line 7: short pause, in consecutive silent chunks. -/
def PAUSE_THRESHOLD : Nat := 2

/-- Constant from App.tsx line 8: long silence, in consecutive silent chunks. -/
def SILENCE_THRESHOLD : Nat := 5

/-- An outbound message on the duplex channel: control text or binary audio. -/
inductive Out where
  | text (msg : String)
  | binary (chunks : List Nat)
deriving DecidableEq

/-- The component state of App.tsx: React state flags, mutable refs, and the
live-resource indicators (recorder active, socket open, audio element playing). -/
structure AppState where
  transcript : String
  aiResponse : String
  isRecording : Bool
  isPlaying : Bool
  isPaused : Bool
  isProcessing : Bool
  audioChunks : List Nat
  silentChunks : Nat
  currentAudioChunks : List Nat
  recorderActive : Bool
  wsOpen : Bool
  playbackActive : Bool
deriving DecidableEq

/-- The initial component state: all flags false, buffers empty, counter zero. -/
def initState : AppState :=
  { transcript := ""
    aiResponse := ""
    isRecording := false
    isPlaying := false
    isPaused := false
    isProcessing := false
    audioChunks := []
    silentChunks := 0
    currentAudioChunks := []
    recorderActive := false
    wsOpen := false
    playbackActive := false }

/-- Embeds stopRecording, App.tsx lines 24-43: if the MediaRecorder is not
inactive, stop it (releasing the tracks via onstop) and clear the recording,
paused and processing flags; then unconditionally reset the silence counter. -/
def stopRecording (s : AppState) : AppState :=
  let s1 := if s.recorderActive = true then
      { s with recorderActive := false, isRecording := false,
               isPaused := false, isProcessing := false }
    else s
  { s1 with silentChunks := 0 }

/-- Embeds processPausedAudio, App.tsx lines 46-69: if there is nothing to
process or a flush is already in progress, return; otherwise mark processing,
and if the socket is open send the literal pause marker followed by the blob of
the accumulated chunks and clear the current-utterance buffer. -/
def processPausedBuffer (s : AppState) : AppState × List Out :=
  if s.currentAudioChunks = [] ∨ s.isProcessing = true then (s, [])
  else
    let s1 := { s with isProcessing := true }
    if s1.wsOpen = true then
      ({ s1 with currentAudioChunks := [] },
       [Out.text ("PAUSE_PROCESSING"), Out.binary s.currentAudioChunks])
    else (s1, [])

/-- Embeds the ondataavailable handler, App.tsx lines 176-229: push the chunk
to the session record, push it to the current-utterance buffer unless a flush
is in progress, withhold while playing or processing, stop when the socket is
not open, and otherwise run the silence bookkeeping: a silent chunk increments
the counter, may trigger the pause flush at PAUSE_THRESHOLD and may auto-stop
at SILENCE_THRESHOLD; a speech chunk resets the pause state and counter and is
transmitted immediately. -/
def ondataavailable (s : AppState) (n : Nat) : AppState × List Out :=
  let sA := { s with audioChunks := s.audioChunks ++ [n] }
  let sB := if s.isProcessing = true then sA
            else { sA with currentAudioChunks := sA.currentAudioChunks ++ [n] }
  if s.isPlaying = true ∨ s.isProcessing = true then (sB, [])
  else if s.wsOpen = false then (stopRecording sB, [])
  else if n < 1000 then
    let sC := { sB with silentChunks := sB.silentChunks + 1 }
    let r := if PAUSE_THRESHOLD ≤ sC.silentChunks ∧ sC.isPaused = false
             then processPausedBuffer { sC with isPaused := true }
             else (sC, [])
    if SILENCE_THRESHOLD ≤ r.1.silentChunks then (stopRecording r.1, r.2) else r
  else
    let sD := if sB.isPaused = true then { sB with isPaused := false } else sB
    let sE := { sD with silentChunks := 0 }
    if s.isProcessing = false then (sE, [Out.binary [n]]) else (sE, [])

/-- Embeds the head of playAudio, App.tsx lines 72-78: stop any active
recording first, then mark the AI as speaking and start the Audio element. -/
def playAudioStart (s : AppState) : AppState :=
  let s1 := stopRecording s
  { s1 with isPlaying := true, playbackActive := true }

/-- Embeds audio.onended, App.tsx lines 80-87: playback finished; if the socket
is open, inform the backend; isPlaying is left set until CLIENT_READY. -/
def onPlayEnded (s : AppState) : AppState × List Out :=
  ({ s with playbackActive := false },
   if s.wsOpen = true then [Out.text ("CLIENT_DONE_PLAYING")] else [])

/-- Embeds the playback failure path, App.tsx lines 89-102 (audio.onerror and
the rejection handler of audio.play()): surface a notice, clear isPlaying so
the user can retry, send nothing. -/
def onPlayError (s : AppState) : AppState × List Out :=
  ({ s with playbackActive := false, isPlaying := false,
            aiResponse := "Error playing AI response." }, [])

/-- Boolean prefix test on strings, the semantics of data.startsWith used by
handleWSMessage (stated over the underlying character lists so that it is
kernel-computable). -/
def strStarts (data pre : String) : Bool :=
  pre.data.isPrefixOf data.data

/-- Drops a leading tag from a string, the effect of data.replace(tag, "") on a
string that starts with the tag (tags of the source never recur in a payload). -/
def stripTag (tag data : String) : String :=
  String.mk (data.data.drop tag.data.length)

/-- Embeds handleWSMessage for text frames, App.tsx lines 106-139: prefix
dispatch on the control vocabulary; only the flag updates matter here. -/
def handleWSText (s : AppState) (data : String) : AppState :=
  if strStarts data ("[Transcript] ") = true then
    { s with transcript := stripTag ("[Transcript] ") data }
  else if strStarts data ("[AI] ") = true then
    { s with aiResponse := stripTag ("[AI] ") data }
  else if strStarts data ("[Error] ") = true then
    { s with aiResponse := data, isPlaying := false }
  else if data = "[Status] AI_SPEAKING" then
    { s with isPlaying := true }
  else if data = "[Status] AI_DONE_SPEAKING" then s
  else if data = "[Status] CLIENT_READY" then
    { s with isPlaying := false, isProcessing := false }
  else if strStarts data ("[Warning] ") = true then s
  else if data = "[Status] SKIPPING_EMPTY_INPUT" then
    { s with aiResponse := "Input was too short or silent, please try speaking again.",
             isPlaying := false, isProcessing := false }
  else if data = "[Status] PAUSE_PROCESSED" then
    { s with isProcessing := false }
  else s

/-- Embeds ws.onclose, App.tsx lines 262-268: clear the recording and playing
flags, surface the connectivity notice, drop the socket.  The MediaRecorder and
the Audio element are not touched by this handler. -/
def onWSClose (s : AppState) : AppState :=
  { s with isRecording := false, isPlaying := false,
           aiResponse := "Connection to server lost. Please refresh or try again.",
           wsOpen := false }

/-- Embeds ws.onerror, App.tsx lines 269-277: surface the notice, clear the
recording and playing flags, drop the socket. -/
def onWSError (s : AppState) : AppState :=
  { s with aiResponse := "WebSocket connection error. Please refresh or try again.",
           isRecording := false, isPlaying := false, wsOpen := false }

/-- Embeds the success tail of setupMediaRecorder, App.tsx lines 230-234: the
recorder is live, the recording flag is set, the panels are cleared. -/
def recorderStart (s : AppState) : AppState :=
  { s with recorderActive := true, isRecording := true,
           transcript := "", aiResponse := "" }

/-- Embeds the failure branch of setupMediaRecorder, App.tsx lines 235-239. -/
def recorderFail (s : AppState) : AppState :=
  { s with aiResponse := "Error initializing audio recording. Please check permissions.",
           isRecording := false }

/-- The events whose callbacks the source installs: connection opened,
recorder acquisition resolved, a capture chunk delivered, a text or binary
frame received, playback completion or failure, socket close or error, and the
user stopping capture with the talk button. -/
inductive Ev where
  | wsConnect
  | recStarted
  | recFailed
  | chunk (n : Nat)
  | textMsg (data : String)
  | audioMsg
  | playEnded
  | playFailed
  | wsClosed
  | wsErrored
  | micStop

/-- When each callback can fire: chunks only from a live recorder, frames only
on an open socket, playback events only while an Audio element is playing, a
recorder only starts when the click guard of handleMicClick admitted it, and a
user stop only while recording and not blocked by isPlaying. -/
def evGuard (s : AppState) : Ev → Bool
  | .wsConnect => !s.wsOpen
  | .recStarted => s.wsOpen && !s.recorderActive && !s.isRecording && !s.isPlaying
  | .recFailed => s.wsOpen && !s.isRecording && !s.isPlaying
  | .chunk _ => s.recorderActive
  | .textMsg _ => s.wsOpen
  | .audioMsg => s.wsOpen
  | .playEnded => s.playbackActive
  | .playFailed => s.playbackActive
  | .wsClosed => true
  | .wsErrored => true
  | .micStop => !s.isPlaying && s.isRecording

/-- The event-labelled step: dispatches each event to the handler embedded from
the source and collects the messages it sends. -/
def step (s : AppState) : Ev → AppState × List Out
  | .wsConnect => ({ s with wsOpen := true }, [])
  | .recStarted => (recorderStart s, [])
  | .recFailed => (recorderFail s, [])
  | .chunk n => ondataavailable s n
  | .textMsg d => (handleWSText s d, [])
  | .audioMsg => (playAudioStart s, [])
  | .playEnded => onPlayEnded s
  | .playFailed => onPlayError s
  | .wsClosed => (onWSClose s, [])
  | .wsErrored => (onWSError s, [])
  | .micStop => (stopRecording s, [])

/-- The states the component can actually be in: everything generated from the
initial state by guarded events. -/
inductive Reachable : AppState → Prop where
  | init : Reachable initState
  | next {s : AppState} {e : Ev} :
      Reachable s → evGuard s e = true → Reachable (step s e).1

/-- A chunk delivery as it happens in the program: ondataavailable fires only
while the recorder is live. -/
def chunkStep (s : AppState) (n : Nat) : AppState × List Out :=
  if s.recorderActive = true then ondataavailable s n else (s, [])

/-- Folds a whole capture-chunk sequence through chunkStep, concatenating the
transmitted messages. -/
def processChunks (s : AppState) : List Nat → AppState × List Out
  | [] => (s, [])
  | n :: rest =>
    let r := chunkStep s n
    let r2 := processChunks r.1 rest
    (r2.1, r.2 ++ r2.2)

/-- Runs a list of events, discarding outputs. -/
def runE (s : AppState) : List Ev → AppState
  | [] => s
  | e :: es => runE (step s e).1 es

/-- Checks that every event of a list is admissible in the state where it
fires. -/
def guardsOk (s : AppState) : List Ev → Bool
  | [] => true
  | e :: es => evGuard s e && guardsOk (step s e).1 es

/-- The exact condition under which a chunk delivered to ondataavailable
triggers the pause flush: live send path, silent chunk, silence run crossing
PAUSE_THRESHOLD, pause latch not yet set. -/
def pauseFlushFires (s : AppState) (n : Nat) : Bool :=
  !s.isPlaying && !s.isProcessing && s.wsOpen &&
    decide (n < 1000) && decide (PAUSE_THRESHOLD ≤ s.silentChunks + 1) && !s.isPaused

/-- Stated from the spec's words, for comparison with the code's counter: the
count of trailing chunks classified silent (byte size below 1000) since the
last chunk classified speech. -/
def specTrailingSilentRun (l : List Nat) : Nat :=
  (l.reverse.takeWhile (fun n => decide (n < 1000))).length

/-- A session that has connected and acquired the recorder: the base listening
state used by several concrete scenarios. -/
def openRecState : AppState := runE initState [Ev.wsConnect, Ev.recStarted]

theorem reachable_runE (es : List Ev) :
    ∀ s : AppState, Reachable s → guardsOk s es = true → Reachable (runE s es) := by
  induction es with
  | nil => intro s hs _; simpa [runE] using hs
  | cons e es ih =>
    intro s hs h
    simp only [guardsOk, Bool.and_eq_true] at h
    simpa [runE] using ih _ (Reachable.next hs h.1) h.2

theorem handleWSText_silence_fields (s : AppState) (d : String) :
    (handleWSText s d).isPaused = s.isPaused
    ∧ (handleWSText s d).silentChunks = s.silentChunks := by
  unfold handleWSText
  split_ifs <;> exact ⟨rfl, rfl⟩

theorem ondata_run_inv (s : AppState) (n : Nat)
    (ih : s.isPaused = false → s.silentChunks ≤ 1) :
    (ondataavailable s n).1.isPaused = false → (ondataavailable s n).1.silentChunks ≤ 1 := by
  unfold ondataavailable
  by_cases hp : s.isPlaying = true <;> by_cases hq : s.isProcessing = true <;>
    by_cases hw : s.wsOpen = false <;> by_cases hn : n < 1000 <;>
    simp_all [stopRecording, processPausedBuffer, PAUSE_THRESHOLD, SILENCE_THRESHOLD] <;>
    split_ifs <;> simp_all
  all_goals intro h2
  all_goals simp_all

/-- In every reachable state, if the pause latch is clear the silence run is at
most one: the run crosses PAUSE_THRESHOLD only together with setting the latch,
so a flush can only happen exactly at the crossing from below. -/
theorem pausedRun_le_one {s : AppState} (h : Reachable s) :
    s.isPaused = false → s.silentChunks ≤ 1 := by
  induction h with
  | init => intro _; simp [initState]
  | @next s e hr hg ih =>
    cases e with
    | wsConnect => simpa [step] using ih
    | recStarted => simpa [step, recorderStart] using ih
    | recFailed => simpa [step, recorderFail] using ih
    | chunk n => exact ondata_run_inv s n ih
    | textMsg d =>
      intro hp
      have hf := handleWSText_silence_fields s d
      simp only [step] at hp ⊢
      rw [hf.2]
      exact ih (hf.1 ▸ hp)
    | audioMsg => simp [step, playAudioStart, stopRecording]
    | playEnded => simpa [step, onPlayEnded] using ih
    | playFailed => simpa [step, onPlayError] using ih
    | wsClosed => simpa [step, onWSClose] using ih
    | wsErrored => simpa [step, onWSError] using ih
    | micStop =>
      simp only [step, stopRecording]
      split <;> simp

theorem clientReady_eq (s : AppState) :
    handleWSText s ("[Status] CLIENT_READY")
      = { s with isPlaying := false, isProcessing := false } := by
  unfold handleWSText
  repeat rw [if_neg (by decide)]
  rw [if_pos (by decide)]

/-- Claim C1, counterexample: a reachable state in which a remote reply is
playing while the microphone capture is active and a captured speech chunk is
transmitted over the channel.  After playback starts, an inbound error notice
clears isPlaying, the talk control re-enables, a click restarts capture while
the Audio element is still playing, and the next speech chunk is sent.  This
refutes that in every reachable state Speaking implies capture inactive and no
chunk transmitted. -/
theorem c1_speaking_capture_overlap :
    Reachable (runE initState [Ev.wsConnect, Ev.recStarted, Ev.audioMsg,
        Ev.textMsg ("[Error] x"), Ev.recStarted])
    ∧ (runE initState [Ev.wsConnect, Ev.recStarted, Ev.audioMsg,
        Ev.textMsg ("[Error] x"), Ev.recStarted]).playbackActive = true
    ∧ (runE initState [Ev.wsConnect, Ev.recStarted, Ev.audioMsg,
        Ev.textMsg ("[Error] x"), Ev.recStarted]).recorderActive = true
    ∧ (ondataavailable (runE initState [Ev.wsConnect, Ev.recStarted, Ev.audioMsg,
        Ev.textMsg ("[Error] x"), Ev.recStarted]) 1200).2 = [Out.binary [1200]] :=
  ⟨reachable_runE _ initState Reachable.init (by decide), by decide, by decide, by decide⟩

/-- Claim C1, amended: while the isPlaying flag is set (the state the code
enters on AI_SPEAKING and on playback start), no captured chunk is ever
transmitted — the handler returns before any send; and starting playback stops
capture first.  The stronger original claim fails because an error notice can
clear isPlaying while the reply is still audible (see the counterexample). -/
theorem c1_withhold_while_playing (s : AppState) (n : Nat) (h : s.isPlaying = true) :
    (ondataavailable s n).2 = []
    ∧ (playAudioStart s).recorderActive = false
    ∧ (playAudioStart s).playbackActive = true := by
  unfold ondataavailable playAudioStart
  simp_all [stopRecording]
  split_ifs <;> simp_all

/-- Witness for C1 amended at a concrete playing state. -/
theorem c1_withhold_witness :
    (ondataavailable { initState with isPlaying := true } 1200).2 = [] :=
  (c1_withhold_while_playing { initState with isPlaying := true } 1200 rfl).1

/-- Claim C2, counterexample: reachable states in which the transport has
closed but the microphone device is still held (recorderActive remains true)
and, separately, the playback sink keeps playing (playbackActive remains true).
The onclose handler only clears flags; it neither stops the MediaRecorder nor
the Audio element, refuting the synchronous-stop part of the claim. -/
theorem c2_close_leaves_devices :
    Reachable (runE initState [Ev.wsConnect, Ev.recStarted, Ev.wsClosed])
    ∧ (runE initState [Ev.wsConnect, Ev.recStarted, Ev.wsClosed]).wsOpen = false
    ∧ (runE initState [Ev.wsConnect, Ev.recStarted, Ev.wsClosed]).recorderActive = true
    ∧ Reachable (runE initState [Ev.wsConnect, Ev.recStarted, Ev.audioMsg, Ev.wsClosed])
    ∧ (runE initState [Ev.wsConnect, Ev.recStarted, Ev.audioMsg, Ev.wsClosed]).playbackActive
        = true :=
  ⟨reachable_runE _ initState Reachable.init (by decide), by decide, by decide,
   reachable_runE _ initState Reachable.init (by decide), by decide⟩

/-- Claim C2, amended: on transport close the recording and playing flags are
cleared and the connectivity notice is surfaced, but the recorder and playback
devices are left untouched; the microphone is released only lazily, when the
next chunk callback observes the closed socket and calls stopRecording. -/
theorem c2_close_clears_flags (s : AppState) (n : Nat)
    (hpr : s.isProcessing = false) (hrec : s.recorderActive = true) :
    (onWSClose s).isRecording = false
    ∧ (onWSClose s).isPlaying = false
    ∧ (onWSClose s).aiResponse = "Connection to server lost. Please refresh or try again."
    ∧ (onWSClose s).recorderActive = s.recorderActive
    ∧ (onWSClose s).playbackActive = s.playbackActive
    ∧ (ondataavailable (onWSClose s) n).1.recorderActive = false := by
  unfold onWSClose ondataavailable stopRecording
  simp_all

/-- Witness for C2 amended at a concrete recording state. -/
theorem c2_close_clears_flags_witness :
    (ondataavailable (onWSClose openRecState) 900).1.recorderActive = false :=
  (c2_close_clears_flags openRecState 900 rfl rfl).2.2.2.2.2

/-- Claim C3, counterexample: the playback failure path of a real play call
sends nothing — in particular no playback-finished control message — refuting
that the completion message is sent on both the success and the failure path. -/
theorem c3_error_path_sends_nothing :
    Reachable (runE initState [Ev.wsConnect, Ev.recStarted, Ev.audioMsg])
    ∧ (runE initState [Ev.wsConnect, Ev.recStarted, Ev.audioMsg]).playbackActive = true
    ∧ (runE initState [Ev.wsConnect, Ev.recStarted, Ev.audioMsg]).wsOpen = true
    ∧ (onPlayError (runE initState [Ev.wsConnect, Ev.recStarted, Ev.audioMsg])).2 = []
    ∧ Out.text ("CLIENT_DONE_PLAYING")
        ∉ (onPlayError (runE initState [Ev.wsConnect, Ev.recStarted, Ev.audioMsg])).2 :=
  ⟨reachable_runE _ initState Reachable.init (by decide), by decide, by decide,
   by decide, by decide⟩

/-- Claim C3, amended: on successful playback completion the CLIENT_DONE_PLAYING
control message is sent when the socket is open; on the failure path no control
message is sent at all — instead the playing flag is cleared locally so the
user can retry, and the Speaking-to-AwaitingReply trigger fires only on the
success path. -/
theorem c3_completion_paths (s : AppState) (h : s.wsOpen = true) :
    (onPlayEnded s).2 = [Out.text ("CLIENT_DONE_PLAYING")]
    ∧ (onPlayEnded s).1.playbackActive = false
    ∧ (onPlayError s).2 = []
    ∧ (onPlayError s).1.playbackActive = false
    ∧ (onPlayError s).1.isPlaying = false := by
  unfold onPlayEnded onPlayError
  simp [h]

/-- Witness for C3 amended at a concrete playing state. -/
theorem c3_completion_paths_witness :
    (onPlayEnded (runE initState [Ev.wsConnect, Ev.recStarted, Ev.audioMsg])).2
      = [Out.text ("CLIENT_DONE_PLAYING")] :=
  (c3_completion_paths (runE initState [Ev.wsConnect, Ev.recStarted, Ev.audioMsg]) rfl).1

/-- Claim C4: on the live send path, a chunk emits the PauseMarker text exactly
when it is silent, no flush is in progress, the pause latch is clear and the
silence run crosses PAUSE_THRESHOLD; in every reachable state that crossing is
exact (the run is at most one below the threshold while the latch is clear);
each flush sends the marker, then the whole buffered utterance including the
triggering chunk, and clears the buffer, setting the latch and the processing
flag; a silent chunk with the latch set emits nothing (no re-trigger), chunks
during a flush emit nothing, and a speech chunk resets the run and the latch. -/
theorem c4_pause_flush_once_per_crossing (s : AppState) (n : Nat)
    (hr : Reachable s) (hws : s.wsOpen = true) (hpl : s.isPlaying = false) :
    (Out.text ("PAUSE_PROCESSING") ∈ (ondataavailable s n).2 ↔
      (n < 1000 ∧ s.isProcessing = false ∧ s.isPaused = false
        ∧ PAUSE_THRESHOLD ≤ s.silentChunks + 1))
    ∧ (s.isPaused = false → s.silentChunks + 1 ≤ PAUSE_THRESHOLD)
    ∧ (Out.text ("PAUSE_PROCESSING") ∈ (ondataavailable s n).2 →
        (ondataavailable s n).2 =
          [Out.text ("PAUSE_PROCESSING"), Out.binary (s.currentAudioChunks ++ [n])]
        ∧ (ondataavailable s n).1.currentAudioChunks = []
        ∧ (ondataavailable s n).1.isPaused = true
        ∧ (ondataavailable s n).1.isProcessing = true)
    ∧ (s.isPaused = true → n < 1000 → (ondataavailable s n).2 = [])
    ∧ (s.isProcessing = true → (ondataavailable s n).2 = [])
    ∧ (1000 ≤ n → s.isProcessing = false →
        (ondataavailable s n).1.silentChunks = 0 ∧ (ondataavailable s n).1.isPaused = false) := by
  have hinv := pausedRun_le_one hr
  unfold ondataavailable
  by_cases hq : s.isProcessing = true <;> by_cases hn : n < 1000 <;>
    by_cases hpa : s.isPaused = true <;>
    simp_all [processPausedBuffer, stopRecording, PAUSE_THRESHOLD, SILENCE_THRESHOLD] <;>
    split_ifs <;> simp_all <;> omega

/-- Witness for C4 at a reachable listening state with one prior silent chunk:
the next silent chunk crosses the threshold and emits the pause marker. -/
theorem c4_pause_flush_witness :
    Out.text ("PAUSE_PROCESSING") ∈
      (ondataavailable
        (runE initState [Ev.wsConnect, Ev.recStarted, Ev.chunk 1500, Ev.chunk 900]) 800).2 :=
  ((c4_pause_flush_once_per_crossing
      (runE initState [Ev.wsConnect, Ev.recStarted, Ev.chunk 1500, Ev.chunk 900]) 800
      (reachable_runE _ initState Reachable.init (by decide)) rfl rfl).1).mpr (by decide)

/-- Claim C5, counterexample: five consecutive silent chunks with no
intervening speech do not stop capture — the flush triggered at the second
silent chunk sets the processing flag, the remaining silent chunks return
early without counting, the run stays at two and the recorder stays live.
This refutes the auto-stop firing at the fifth chunk regardless of flush
state. -/
theorem c5_five_silent_chunks_no_stop :
    Reachable (runE initState [Ev.wsConnect, Ev.recStarted, Ev.chunk 1500,
        Ev.chunk 900, Ev.chunk 900, Ev.chunk 900, Ev.chunk 900, Ev.chunk 900])
    ∧ (runE initState [Ev.wsConnect, Ev.recStarted, Ev.chunk 1500,
        Ev.chunk 900, Ev.chunk 900, Ev.chunk 900, Ev.chunk 900, Ev.chunk 900]).audioChunks
        = [1500, 900, 900, 900, 900, 900]
    ∧ (runE initState [Ev.wsConnect, Ev.recStarted, Ev.chunk 1500,
        Ev.chunk 900, Ev.chunk 900, Ev.chunk 900, Ev.chunk 900, Ev.chunk 900]).recorderActive
        = true
    ∧ (runE initState [Ev.wsConnect, Ev.recStarted, Ev.chunk 1500,
        Ev.chunk 900, Ev.chunk 900, Ev.chunk 900, Ev.chunk 900, Ev.chunk 900]).silentChunks
        = 2 :=
  ⟨reachable_runE _ initState Reachable.init (by decide), by decide, by decide, by decide⟩

/-- Claim C5, amended: the long-silence auto-stop fires when a silent chunk is
processed on the live counting path (socket open, not playing, no flush
pending) and brings the run to SILENCE_THRESHOLD: the recorder is released,
the recording flag cleared, the run reset, and every further chunk delivery is
a no-op, so the stop happens at most once per utterance.  Silent chunks that
arrive while a pause-flush awaits its acknowledgment are not counted, so with
a pending flush the stop is deferred until counting resumes. -/
theorem c5_auto_stop_when_counting (s : AppState) (n : Nat)
    (hws : s.wsOpen = true) (hpl : s.isPlaying = false) (hpr : s.isProcessing = false)
    (hrec : s.recorderActive = true)
    (hn : n < 1000) (hth : SILENCE_THRESHOLD ≤ s.silentChunks + 1) :
    (ondataavailable s n).1.recorderActive = false
    ∧ (ondataavailable s n).1.isRecording = false
    ∧ (ondataavailable s n).1.silentChunks = 0
    ∧ (∀ m : Nat, chunkStep (ondataavailable s n).1 m = ((ondataavailable s n).1, [])) := by
  unfold ondataavailable chunkStep
  simp_all [stopRecording, processPausedBuffer]
  split_ifs <;> simp_all

/-- Witness for C5 amended: after the flush is acknowledged with
PAUSE_PROCESSED, the fifth counted silent chunk stops capture. -/
theorem c5_auto_stop_witness :
    (ondataavailable (runE initState [Ev.wsConnect, Ev.recStarted, Ev.chunk 1500,
        Ev.chunk 900, Ev.chunk 900, Ev.textMsg ("[Status] PAUSE_PROCESSED"),
        Ev.chunk 900, Ev.chunk 900]) 900).1.recorderActive = false :=
  (c5_auto_stop_when_counting (runE initState [Ev.wsConnect, Ev.recStarted, Ev.chunk 1500,
      Ev.chunk 900, Ev.chunk 900, Ev.textMsg ("[Status] PAUSE_PROCESSED"),
      Ev.chunk 900, Ev.chunk 900]) 900 rfl rfl rfl rfl (by decide) (by decide)).1

/-- Claim C6, counterexample: after three silent chunks the chunk record holds
three trailing silent chunks but the counter reads two — the third chunk
arrived while the pause flush was pending and was not counted.  This refutes
that SilenceRun always equals the number of trailing silent chunks. -/
theorem c6_silentrun_undercounts :
    Reachable (runE initState [Ev.wsConnect, Ev.recStarted,
        Ev.chunk 900, Ev.chunk 900, Ev.chunk 900])
    ∧ (runE initState [Ev.wsConnect, Ev.recStarted,
        Ev.chunk 900, Ev.chunk 900, Ev.chunk 900]).audioChunks = [900, 900, 900]
    ∧ specTrailingSilentRun [900, 900, 900] = 3
    ∧ (runE initState [Ev.wsConnect, Ev.recStarted,
        Ev.chunk 900, Ev.chunk 900, Ev.chunk 900]).silentChunks = 2
    ∧ (runE initState [Ev.wsConnect, Ev.recStarted,
        Ev.chunk 900, Ev.chunk 900, Ev.chunk 900]).silentChunks
        ≠ specTrailingSilentRun ((runE initState [Ev.wsConnect, Ev.recStarted,
            Ev.chunk 900, Ev.chunk 900, Ev.chunk 900]).audioChunks) :=
  ⟨reachable_runE _ initState Reachable.init (by decide), by decide, by decide,
   by decide, by decide⟩

/-- Claim C6, amended: on the live counting path (socket open, not playing, no
flush pending) the counter follows the recurrence of the source — a silent
chunk increments it unless that increment reaches SILENCE_THRESHOLD, in which
case the auto-stop resets it to zero; a speech chunk resets it to zero; and it
is a natural number, never negative.  Chunks withheld during playback or a
pending flush are not counted, which is where the original claim fails. -/
theorem c6_silentrun_recurrence (s : AppState) (n : Nat)
    (hws : s.wsOpen = true) (hpl : s.isPlaying = false) (hpr : s.isProcessing = false) :
    (n < 1000 →
      (ondataavailable s n).1.silentChunks =
        if SILENCE_THRESHOLD ≤ s.silentChunks + 1 then 0 else s.silentChunks + 1)
    ∧ (1000 ≤ n → (ondataavailable s n).1.silentChunks = 0)
    ∧ 0 ≤ (ondataavailable s n).1.silentChunks := by
  unfold ondataavailable
  by_cases hn : n < 1000 <;>
    simp_all [stopRecording, processPausedBuffer] <;> split_ifs <;> simp_all <;> omega

/-- Witness for C6 amended at a concrete listening state with one silent chunk. -/
theorem c6_silentrun_witness :
    (ondataavailable (runE initState [Ev.wsConnect, Ev.recStarted, Ev.chunk 900])
        900).1.silentChunks =
      if SILENCE_THRESHOLD ≤
          (runE initState [Ev.wsConnect, Ev.recStarted, Ev.chunk 900]).silentChunks + 1 then 0
      else (runE initState [Ev.wsConnect, Ev.recStarted, Ev.chunk 900]).silentChunks + 1 :=
  (c6_silentrun_recurrence (runE initState [Ev.wsConnect, Ev.recStarted, Ev.chunk 900])
      900 rfl rfl rfl).1 (by decide)

/-- Claim C7, counterexample: receiving CLIENT_READY in a reachable
awaiting-reply state (playback finished, flag still set) clears the playing
flag but does not start capture — the recording flag and the recorder stay
off, refuting the start-capture part of the claim; the user must click again. -/
theorem c7_client_ready_no_capture_start :
    Reachable (runE initState [Ev.wsConnect, Ev.recStarted, Ev.audioMsg, Ev.playEnded])
    ∧ (runE initState [Ev.wsConnect, Ev.recStarted, Ev.audioMsg, Ev.playEnded]).isPlaying = true
    ∧ (handleWSText (runE initState [Ev.wsConnect, Ev.recStarted, Ev.audioMsg, Ev.playEnded])
        ("[Status] CLIENT_READY")).isPlaying = false
    ∧ (handleWSText (runE initState [Ev.wsConnect, Ev.recStarted, Ev.audioMsg, Ev.playEnded])
        ("[Status] CLIENT_READY")).isRecording = false
    ∧ (handleWSText (runE initState [Ev.wsConnect, Ev.recStarted, Ev.audioMsg, Ev.playEnded])
        ("[Status] CLIENT_READY")).recorderActive = false :=
  ⟨reachable_runE _ initState Reachable.init (by decide), by decide, by decide,
   by decide, by decide⟩

/-- Claim C7, amended: CLIENT_READY clears exactly the playing and processing
flags, re-enabling the talk control, and leaves capture state untouched — it
re-arms but does not start capture; it is idempotent, and receiving it when
both flags are already clear (the listening state) changes nothing. -/
theorem c7_client_ready_idempotent (s : AppState) :
    handleWSText s ("[Status] CLIENT_READY")
      = { s with isPlaying := false, isProcessing := false }
    ∧ handleWSText (handleWSText s ("[Status] CLIENT_READY")) ("[Status] CLIENT_READY")
        = handleWSText s ("[Status] CLIENT_READY")
    ∧ (handleWSText s ("[Status] CLIENT_READY")).recorderActive = s.recorderActive
    ∧ (handleWSText s ("[Status] CLIENT_READY")).isRecording = s.isRecording
    ∧ (s.isPlaying = false → s.isProcessing = false →
        handleWSText s ("[Status] CLIENT_READY") = s) := by
  refine ⟨clientReady_eq s, ?_, ?_, ?_, ?_⟩
  · rw [clientReady_eq, clientReady_eq]
  · rw [clientReady_eq]
  · rw [clientReady_eq]
  · intro h1 h2
    rw [clientReady_eq]
    cases s
    simp_all

/-- Witness for C7 amended: in the concrete listening state CLIENT_READY is a
no-op. -/
theorem c7_client_ready_witness :
    handleWSText openRecState ("[Status] CLIENT_READY") = openRecState :=
  (c7_client_ready_idempotent openRecState).2.2.2.2 rfl rfl

/-- Claim C8, counterexample: a speech chunk arriving while the pause flush is
pending is recorded in the session log but the utterance buffer stays empty —
the chunk does not seed the next utterance, refuting the claim. -/
theorem c8_flush_chunk_not_seeded :
    Reachable (runE initState [Ev.wsConnect, Ev.recStarted, Ev.chunk 1500,
        Ev.chunk 900, Ev.chunk 900, Ev.chunk 1200])
    ∧ (runE initState [Ev.wsConnect, Ev.recStarted, Ev.chunk 1500,
        Ev.chunk 900, Ev.chunk 900, Ev.chunk 1200]).audioChunks = [1500, 900, 900, 1200]
    ∧ (runE initState [Ev.wsConnect, Ev.recStarted, Ev.chunk 1500,
        Ev.chunk 900, Ev.chunk 900, Ev.chunk 1200]).isProcessing = true
    ∧ (runE initState [Ev.wsConnect, Ev.recStarted, Ev.chunk 1500,
        Ev.chunk 900, Ev.chunk 900, Ev.chunk 1200]).currentAudioChunks = [] :=
  ⟨reachable_runE _ initState Reachable.init (by decide), by decide, by decide, by decide⟩

/-- Claim C8, amended: every chunk is appended to the session chunk record, and
it is appended to the utterance buffer exactly when no flush is in progress; a
chunk that itself triggers the flush is first appended and then flushed with
the buffer, leaving the buffer empty; a chunk arriving during a pending flush
is not kept in the utterance buffer at all. -/
theorem c8_buffer_append_rule (s : AppState) (n : Nat) :
    (ondataavailable s n).1.audioChunks = s.audioChunks ++ [n]
    ∧ (ondataavailable s n).1.currentAudioChunks =
        (if s.isProcessing = true then s.currentAudioChunks
         else if pauseFlushFires s n = true then []
         else s.currentAudioChunks ++ [n]) := by
  unfold ondataavailable
  by_cases hp : s.isPlaying = true <;> by_cases hq : s.isProcessing = true <;>
    by_cases hw : s.wsOpen = false <;> by_cases hn : n < 1000 <;>
    simp_all [stopRecording, processPausedBuffer, pauseFlushFires] <;>
    split_ifs <;> simp_all

/-- Claim C9, counterexample: stopping the recorder in a reachable state with a
nonzero silence run resets the counter to zero instead of leaving it at its
current value, refuting the leaves-SilenceRun part of the claim. -/
theorem c9_stop_resets_silentrun :
    Reachable (runE initState [Ev.wsConnect, Ev.recStarted, Ev.chunk 900])
    ∧ (runE initState [Ev.wsConnect, Ev.recStarted, Ev.chunk 900]).silentChunks = 1
    ∧ (stopRecording (runE initState [Ev.wsConnect, Ev.recStarted, Ev.chunk 900])).silentChunks
        = 0
    ∧ (stopRecording (runE initState [Ev.wsConnect, Ev.recStarted, Ev.chunk 900])).silentChunks
        ≠ (runE initState [Ev.wsConnect, Ev.recStarted, Ev.chunk 900]).silentChunks :=
  ⟨reachable_runE _ initState Reachable.init (by decide), by decide, by decide, by decide⟩

/-- Claim C9, amended: stopRecording is idempotent — the second call changes
nothing — and leaves both chunk buffers at their current values, but it always
resets the silence counter to zero rather than preserving it. -/
theorem c9_stop_idempotent_preserves_buffer (s : AppState) :
    stopRecording (stopRecording s) = stopRecording s
    ∧ (stopRecording s).currentAudioChunks = s.currentAudioChunks
    ∧ (stopRecording s).audioChunks = s.audioChunks
    ∧ (stopRecording s).silentChunks = 0 := by
  unfold stopRecording
  split <;> simp_all

/-- Claim C10: the flush operation sends the PauseMarker text only together
with the binary payload of a non-empty buffered utterance, and when the buffer
is empty or a flush is already in progress it sends nothing and leaves the
whole state — in particular the buffer — unchanged. -/
theorem c10_pause_marker_nonempty_payload (s : AppState) :
    (s.currentAudioChunks = [] ∨ s.isProcessing = true → processPausedBuffer s = (s, []))
    ∧ (Out.text ("PAUSE_PROCESSING") ∈ (processPausedBuffer s).2 →
        (processPausedBuffer s).2 =
          [Out.text ("PAUSE_PROCESSING"), Out.binary s.currentAudioChunks]
        ∧ s.currentAudioChunks ≠ []
        ∧ (processPausedBuffer s).1.currentAudioChunks = []) := by
  unfold processPausedBuffer
  by_cases h1 : s.currentAudioChunks = [] ∨ s.isProcessing = true <;>
    by_cases h2 : s.wsOpen = true <;> simp_all

/-- Witness for C10 at the empty initial buffer: the flush is a no-op. -/
theorem c10_pause_marker_witness :
    processPausedBuffer initState = (initState, []) :=
  (c10_pause_marker_nonempty_payload initState).1 (Or.inl rfl)

end VoiceAgent
